import Mathlib

/-!
Shallow embedding of the button-printer geometry/layout engine
(`src/js/printGenerator.js`, `src/js/buttonSizes.js`,
`src/js/settingsManager.js`, `src/js/app.js`).

JavaScript numbers are modelled as rationals (`ℚ`).  The few places where
the code can observe a non-finite JavaScript number (`NaN`, `±Infinity`,
`undefined`) are modelled with the `JsNum` type.  `Math.sqrt(3)`, used by
the hex layout, is irrational, so the hex generator takes the value of
`Math.sqrt(3)` as an explicit parameter `sqrt3`.
-/

namespace ButtonPrinter

/-- A JavaScript number as observed by truthiness / `isFinite` tests:
a finite value (`num`), `NaN`, `Infinity`, `-Infinity`, or `undefined`. -/
inductive JsNum where
  | nan : JsNum
  | inf : JsNum
  | negInf : JsNum
  | undef : JsNum
  | num : ℚ → JsNum
deriving DecidableEq

/-- JavaScript falsiness of a number: `NaN`, `undefined` and `0` are falsy. -/
def JsNum.falsy : JsNum → Bool
  | .nan => true
  | .undef => true
  | .num q => q = 0
  | .inf => false
  | .negInf => false

/-- JavaScript `x <= 0` (comparisons with `NaN`/`undefined` are false). -/
def JsNum.le0 : JsNum → Bool
  | .num q => q ≤ 0
  | .negInf => true
  | _ => false

/-- JavaScript `isFinite`. -/
def JsNum.isFinite : JsNum → Bool
  | .num _ => true
  | _ => false

/-- The finite value of a `JsNum` (junk `0` on non-finite inputs). -/
def JsNum.val : JsNum → ℚ
  | .num q => q
  | _ => 0

/-- `src/js/buttonSizes.js`: one entry of `BUTTON_SIZES`.  The `layout`
field is absent (`none`) for grid sizes and `some "hex"` for the 2.25"
size; `maxRows` is the optional row cap. -/
structure ButtonSize where
  name : String
  cutLineDiameter : ℚ
  contentGuideDiameter : ℚ
  layout : Option String := none
  maxRows : Option ℕ := none
deriving DecidableEq

/-- The `'1.25'` entry of `BUTTON_SIZES`. -/
def size1_25 : ButtonSize :=
  { name := "1.25 inch"
    cutLineDiameter := 1.772
    contentGuideDiameter := 1.156
    maxRows := some 5 }

/-- The `'2.25'` entry of `BUTTON_SIZES`. -/
def size2_25 : ButtonSize :=
  { name := "2.25 inch"
    cutLineDiameter := 2.625
    contentGuideDiameter := 2.063
    layout := some "hex"
    maxRows := some 4 }

/-- The result of a JS bracket access on the `BUTTON_SIZES` object
literal: an own catalog entry, a truthy member inherited from
`Object.prototype` (such as the `toString` function, tagged here by its
key), or `undefined`. -/
inductive JsProp where
  | size : ButtonSize → JsProp
  | inherited : String → JsProp
  | undefinedVal : JsProp
deriving DecidableEq

/-- The property keys of `Object.prototype`, which bracket access on a
plain object literal reaches through the prototype chain; every one of
them yields a truthy value (a function, or the prototype object itself
for `__proto__`). -/
def objectPrototypeKeys : List String :=
  ["constructor", "hasOwnProperty", "isPrototypeOf", "propertyIsEnumerable",
   "toLocaleString", "toString", "valueOf", "__proto__",
   "__defineGetter__", "__defineSetter__", "__lookupGetter__", "__lookupSetter__"]

/-- `BUTTON_SIZES[key]`: the two own entries of the object literal; any
other key falls through to the prototype chain, so `Object.prototype`
keys yield an inherited truthy value and only the rest are `undefined`. -/
def BUTTON_SIZES (key : String) : JsProp :=
  if key = "1.25" then .size size1_25
  else if key = "2.25" then .size size2_25
  else if key ∈ objectPrototypeKeys then .inherited key
  else .undefinedVal

/-- `src/js/buttonSizes.js` `getButtonSize`: `const size =
BUTTON_SIZES[key]; if (!size) throw ...; return size`.  Only `undefined`
is falsy here, so an inherited prototype member is returned, not
rejected. -/
def getButtonSize (key : String) : Except String JsProp :=
  match BUTTON_SIZES key with
  | .undefinedVal => .error ("Unknown button size: " ++ key)
  | v => .ok v

/-- An image handle: only its natural pixel dimensions matter to the core. -/
structure Image where
  naturalWidth : ℚ
  naturalHeight : ℚ
deriving DecidableEq

/-- `src/js/canvasController.js` `getImageState()`. -/
structure ImageState where
  image : Image
  scale : ℚ
  offsetX : ℚ
  offsetY : ℚ
  buttonSize : ButtonSize
deriving DecidableEq

/-- `src/js/printGenerator.js`: a paper definition (`US_LETTER`-shaped). -/
structure PaperDefinition where
  width : ℚ
  height : ℚ
  marginTop : ℚ
  marginRight : ℚ
  marginBottom : ℚ
  marginLeft : ℚ
deriving DecidableEq

/-- `src/js/printGenerator.js` `US_LETTER`. -/
def US_LETTER : PaperDefinition :=
  { width := 8.5
    height := 11
    marginTop := 0.5
    marginRight := 0.5
    marginBottom := 0.5
    marginLeft := 0.5 }

/-- Printable width of a paper: `width - marginLeft - marginRight`. -/
def printableWidth (p : PaperDefinition) : ℚ :=
  p.width - p.marginLeft - p.marginRight

/-- Printable height of a paper: `height - marginTop - marginBottom`. -/
def printableHeight (p : PaperDefinition) : ℚ :=
  p.height - p.marginTop - p.marginBottom

/-- The `{ columns, rows, total }` record returned by
`calculateButtonsPerPage`; the hex generator additionally sets
`layout: 'hex'` (modelled as `some "hex"`, absent fields as `none`). -/
structure ButtonGrid where
  columns : ℤ
  rows : ℤ
  total : ℤ
  layout : Option String := none
deriving DecidableEq

/-- One `{ x, y, imageState }` entry of a print layout's button list. -/
structure PlacedButton where
  x : ℚ
  y : ℚ
  imageState : ImageState
deriving DecidableEq

/-- `src/js/printGenerator.js`: the `{ paperSize, buttonSize, grid,
buttons }` record returned by `generatePrintLayout`. -/
structure PrintLayout where
  paperSize : PaperDefinition
  buttonSize : ButtonSize
  grid : ButtonGrid
  buttons : List PlacedButton
deriving DecidableEq

/-- `src/js/printGenerator.js` `calculateButtonsPerPage`.
`Math.floor` on a quotient of JS numbers is `Int.floor` on `ℚ`; the
row-cap test `buttonSize.maxRows && rows > buttonSize.maxRows` uses JS
truthiness, so a present-but-zero `maxRows` does not clamp. -/
def calculateButtonsPerPage (buttonSize : ButtonSize) (paperSize : PaperDefinition) :
    ButtonGrid :=
  let printableWidth := paperSize.width - paperSize.marginLeft - paperSize.marginRight
  let printableHeight := paperSize.height - paperSize.marginTop - paperSize.marginBottom
  let columns : ℤ := ⌊printableWidth / buttonSize.cutLineDiameter⌋
  let rows : ℤ := ⌊printableHeight / buttonSize.cutLineDiameter⌋
  let rows : ℤ :=
    match buttonSize.maxRows with
    | some m => if m ≠ 0 ∧ (m : ℤ) < rows then (m : ℤ) else rows
    | none => rows
  { columns := columns, rows := rows, total := columns * rows }

/-- `numRows = buttonSize.maxRows || 4`: JS `||` takes the right operand
when the left is absent or zero. -/
def hexNumRows (maxRows : Option ℕ) : ℕ :=
  match maxRows with
  | some m => if m = 0 then 4 else m
  | none => 4

/-- The `rowCounts` array of `generateHexPrintLayout`: alternating 3, 2. -/
def hexRowCounts (numRows : ℕ) : List ℕ :=
  (List.range numRows).map (fun i => if i % 2 = 0 then 3 else 2)

/-- `src/js/printGenerator.js` `generateHexPrintLayout`.  `sqrt3` is the
value of `Math.sqrt(3)`. -/
def generateHexPrintLayout (sqrt3 : ℚ) (imageState : ImageState)
    (paperSize : PaperDefinition) : PrintLayout :=
  let buttonSize := imageState.buttonSize
  let diameter := buttonSize.cutLineDiameter
  let numRows := hexNumRows buttonSize.maxRows
  let gap : ℚ := 0.2
  let step := diameter + gap
  let rowCounts := hexRowCounts numRows
  let total : ℤ := (rowCounts.foldl (· + ·) 0 : ℕ)
  let totalWidth := 2 * step + diameter
  let startX3 := (paperSize.width - totalWidth) / 2
  let startX2 := startX3 + step / 2
  let rowSpacing := step * sqrt3 / 2
  let totalHeight := ((numRows : ℚ) - 1) * rowSpacing + diameter
  let startY := (paperSize.height - totalHeight) / 2
  let buttons :=
    (List.range numRows).flatMap (fun row =>
      let count := rowCounts.getD row 0
      let baseX := if count = 3 then startX3 else startX2
      let y := startY + (row : ℚ) * rowSpacing
      (List.range count).map (fun col =>
        { x := baseX + (col : ℚ) * step, y := y, imageState := imageState }))
  let grid : ButtonGrid :=
    { columns := 3, rows := (numRows : ℤ), total := total, layout := some "hex" }
  { paperSize := paperSize, buttonSize := buttonSize, grid := grid, buttons := buttons }

/-- `src/js/printGenerator.js` `generatePrintLayout`: dispatches on
`buttonSize.layout === 'hex'`, otherwise lays out a centered grid. -/
def generatePrintLayout (sqrt3 : ℚ) (imageState : ImageState)
    (paperSize : PaperDefinition) : PrintLayout :=
  let buttonSize := imageState.buttonSize
  if buttonSize.layout = some "hex" then
    generateHexPrintLayout sqrt3 imageState paperSize
  else
    let grid := calculateButtonsPerPage buttonSize paperSize
    let printableWidth := paperSize.width - paperSize.marginLeft - paperSize.marginRight
    let printableHeight := paperSize.height - paperSize.marginTop - paperSize.marginBottom
    let cellWidth := printableWidth / (grid.columns : ℚ)
    let cellHeight := printableHeight / (grid.rows : ℚ)
    let buttons :=
      (List.range grid.rows.toNat).flatMap (fun row =>
        (List.range grid.columns.toNat).map (fun col =>
          { x := paperSize.marginLeft + (col : ℚ) * cellWidth
                  + (cellWidth - buttonSize.cutLineDiameter) / 2
            y := paperSize.marginTop + (row : ℚ) * cellHeight
                  + (cellHeight - buttonSize.cutLineDiameter) / 2
            imageState := imageState }))
    { paperSize := paperSize, buttonSize := buttonSize, grid := grid, buttons := buttons }

/-- `src/js/settingsManager.js`: the persisted `CalibrationData` record.
A record deserialized from storage may hold any JS value in
`scaleFactor`, hence `JsNum`. -/
structure CalibrationData where
  expectedInches : ℚ
  measuredInches : ℚ
  scaleFactor : JsNum
deriving DecidableEq

/-- `src/js/settingsManager.js` `getCalibrationFactor`: the loaded record
(`none` = missing or unparseable), guard
`!cal || !cal.scaleFactor || !isFinite(cal.scaleFactor)` falls back to 1. -/
def getCalibrationFactor (cal : Option CalibrationData) : ℚ :=
  match cal with
  | none => 1
  | some c =>
    if c.scaleFactor.falsy || !c.scaleFactor.isFinite then 1
    else c.scaleFactor.val

/-- `src/js/app.js` `handleSaveCalibration`, modelled as a transition on
the stored record: `measured` is the `parseFloat` of the trimmed input
(`NaN` for empty/garbage input), and the guard
`!measured || measured <= 0 || !isFinite(measured)` rejects without
touching the store; otherwise the computed record is stored. -/
def handleSaveCalibration (measured : JsNum) (stored : Option CalibrationData) :
    Option CalibrationData :=
  if measured.falsy || measured.le0 || !measured.isFinite then stored
  else
    some { expectedInches := 6
           measuredInches := measured.val
           scaleFactor := .num (6 / measured.val) }

end ButtonPrinter

namespace ButtonPrinter

/-! Auxiliary concrete data used by counterexamples and witnesses. -/

/-- A hypothetical oversized grid button (`cutLineDiameter = 20`). -/
def size20 : ButtonSize :=
  { name := "20 inch", cutLineDiameter := 20, contentGuideDiameter := 20 }

/-- A paper whose horizontal margins exceed its width, so the printable
width is negative. -/
def badPaper : PaperDefinition :=
  { width := 1, height := 11, marginTop := 0.5, marginRight := 1,
    marginBottom := 0.5, marginLeft := 1 }

/-- A letter-width paper only 2 inches tall (printable area 7.5 x 1). -/
def shortPaper : PaperDefinition :=
  { width := 8.5, height := 2, marginTop := 0.5, marginRight := 0.5,
    marginBottom := 0.5, marginLeft := 0.5 }

/-- A paper with US-Letter page size but different margins. -/
def otherMarginPaper : PaperDefinition :=
  { width := 8.5, height := 11, marginTop := 0, marginRight := 1,
    marginBottom := 2, marginLeft := 3 }

/-- A concrete image handle. -/
def testImage : Image := { naturalWidth := 800, naturalHeight := 600 }

/-- A concrete image state for the 2.25" hex size. -/
def testState225 : ImageState :=
  { image := testImage, scale := 1, offsetX := 0, offsetY := 0, buttonSize := size2_25 }

/-- A concrete image state for the 1.25" grid size. -/
def testState125 : ImageState :=
  { image := testImage, scale := 1, offsetX := 0, offsetY := 0, buttonSize := size1_25 }

/-- The hex generator's `startX3` specialised to the 2.25" size
(`step = 2.825`, `diameter = 2.625`). -/
def hexStartX3 (p : PaperDefinition) : ℚ := (p.width - (2 * 2.825 + 2.625)) / 2

/-- The hex generator's `rowSpacing = step * sqrt3 / 2` for the 2.25" size. -/
def hexRowSpacing (sqrt3 : ℚ) : ℚ := 2.825 * sqrt3 / 2

/-- The hex generator's `startY` specialised to the 2.25" size
(`numRows = 4`). -/
def hexStartY (sqrt3 : ℚ) (p : PaperDefinition) : ℚ :=
  (p.height - (3 * hexRowSpacing sqrt3 + 2.625)) / 2

/-! Shared lemmas. -/

lemma flatMap_range_map {α : Type} (R C : ℕ) (f : ℕ → ℕ → α) :
    (List.range R).flatMap (fun r => (List.range C).map (f r)) =
    (List.range (R * C)).map (fun i => f (i / C) (i % C)) := by
  induction R with
  | zero => simp
  | succ R ih =>
    rw [List.range_succ, List.flatMap_append, ih, Nat.succ_mul, List.range_add]
    simp only [List.flatMap_cons, List.flatMap_nil, List.append_nil, List.map_append,
      List.map_map]
    congr 1
    symm
    apply List.map_congr_left
    intro j hj
    simp only [List.mem_range] at hj
    have hC : 0 < C := Nat.zero_lt_of_lt hj
    simp only [Function.comp_apply]
    have h1 : (R * C + j) / C = R := by
      rw [Nat.add_comm, Nat.add_mul_div_right _ _ hC, Nat.div_eq_of_lt hj, Nat.zero_add]
    have h2 : (R * C + j) % C = j := by
      rw [Nat.add_comm, Nat.add_mul_mod_self_right, Nat.mod_eq_of_lt hj]
    rw [h1, h2]

lemma length_flatMap_range_map {α : Type} (R C : ℕ) (f : ℕ → ℕ → α) :
    ((List.range R).flatMap (fun r => (List.range C).map (f r))).length = R * C := by
  rw [flatMap_range_map]; simp

lemma getD_flatMap_range_map {α : Type} (R C : ℕ) (f : ℕ → ℕ → α) (i : ℕ) (d : α)
    (h : i < R * C) :
    ((List.range R).flatMap fun r => (List.range C).map (f r)).getD i d = f (i / C) (i % C) := by
  rw [flatMap_range_map]
  have hlen : i < ((List.range (R * C)).map (fun i => f (i / C) (i % C))).length := by
    simpa using h
  rw [List.getD_eq_getElem _ _ hlen]
  simp

/-- Placing `N` cells of width `pw / N` across a printable span `pw` and
centering a button of diameter `d` in cell `c` keeps the button inside
the span. -/
lemma cell_bounds (pw d : ℚ) (N : ℤ) (c : ℕ) (hd : 0 < d) (hN : 1 ≤ N)
    (hNd : (N : ℚ) * d ≤ pw) (hc : c < N.toNat) :
    0 ≤ (c : ℚ) * (pw / (N : ℚ)) + (pw / (N : ℚ) - d) / 2 ∧
    (c : ℚ) * (pw / (N : ℚ)) + (pw / (N : ℚ) - d) / 2 + d ≤ pw := by
  set q := pw / (N : ℚ) with hq
  have hN0 : (0 : ℚ) < (N : ℚ) := by exact_mod_cast hN
  have hqN : (N : ℚ) * q = pw := by
    rw [hq]; field_simp
  have hdq : d ≤ q := by
    rw [hq, le_div_iff₀ hN0]
    nlinarith
  have hq0 : 0 < q := lt_of_lt_of_le hd hdq
  have hcN : (c : ℚ) ≤ (N : ℚ) - 1 := by
    have : (c : ℤ) < N := by
      have := hc
      omega
    have : (c : ℤ) ≤ N - 1 := by omega
    exact_mod_cast this
  constructor
  · nlinarith [mul_nonneg (Nat.cast_nonneg c : (0:ℚ) ≤ (c:ℚ)) hq0.le]
  · nlinarith [mul_le_mul_of_nonneg_right hcN (le_of_lt hq0)]

lemma calc_rows_le (bs : ButtonSize) (p : PaperDefinition) :
    (calculateButtonsPerPage bs p).rows ≤
      ⌊(p.height - p.marginTop - p.marginBottom) / bs.cutLineDiameter⌋ := by
  simp only [calculateButtonsPerPage]
  cases h : bs.maxRows with
  | none => simp
  | some m =>
    simp only
    split_ifs with h1
    · exact le_of_lt h1.2
    · exact le_refl _

lemma calc_columns (bs : ButtonSize) (p : PaperDefinition) :
    (calculateButtonsPerPage bs p).columns =
      ⌊(p.width - p.marginLeft - p.marginRight) / bs.cutLineDiameter⌋ := rfl

lemma calc_columns_nonpos (bs : ButtonSize) (p : PaperDefinition)
    (hd : 0 < bs.cutLineDiameter)
    (h : p.width - p.marginLeft - p.marginRight < bs.cutLineDiameter) :
    (calculateButtonsPerPage bs p).columns ≤ 0 := by
  rw [calc_columns]
  have : (p.width - p.marginLeft - p.marginRight) / bs.cutLineDiameter < 1 :=
    (div_lt_one hd).mpr h
  have h1 : ⌊(p.width - p.marginLeft - p.marginRight) / bs.cutLineDiameter⌋ < (1:ℤ) :=
    Int.floor_lt.mpr (by exact_mod_cast this)
  omega

lemma calc_rows_nonpos (bs : ButtonSize) (p : PaperDefinition)
    (hd : 0 < bs.cutLineDiameter)
    (h : p.height - p.marginTop - p.marginBottom < bs.cutLineDiameter) :
    (calculateButtonsPerPage bs p).rows ≤ 0 := by
  have hle := calc_rows_le bs p
  have : (p.height - p.marginTop - p.marginBottom) / bs.cutLineDiameter < 1 :=
    (div_lt_one hd).mpr h
  have h1 : ⌊(p.height - p.marginTop - p.marginBottom) / bs.cutLineDiameter⌋ < (1:ℤ) :=
    Int.floor_lt.mpr (by exact_mod_cast this)
  omega

lemma grid_buttons_empty (sqrt3 : ℚ) (is : ImageState) (p : PaperDefinition)
    (hhex : is.buttonSize.layout ≠ some "hex")
    (h : (calculateButtonsPerPage is.buttonSize p).columns ≤ 0 ∨
         (calculateButtonsPerPage is.buttonSize p).rows ≤ 0) :
    (generatePrintLayout sqrt3 is p).buttons = [] := by
  simp only [generatePrintLayout, if_neg hhex]
  rcases h with h | h
  · have hc : (calculateButtonsPerPage is.buttonSize p).columns.toNat = 0 := by omega
    simp [hc, List.flatMap_eq_nil_iff]
  · have hr : (calculateButtonsPerPage is.buttonSize p).rows.toNat = 0 := by omega
    simp [hr]

/-- The full output of the hex generator for the 2.25" size, in closed
form: ten buttons in rows of 3, 2, 3, 2. -/
lemma hex_layout_2_25 (sqrt3 : ℚ) (is : ImageState) (p : PaperDefinition)
    (hbs : is.buttonSize = size2_25) :
    (generatePrintLayout sqrt3 is p).grid =
      { columns := 3, rows := 4, total := 10, layout := some "hex" } ∧
    (generatePrintLayout sqrt3 is p).buttons =
      [⟨hexStartX3 p, hexStartY sqrt3 p, is⟩,
       ⟨hexStartX3 p + 2.825, hexStartY sqrt3 p, is⟩,
       ⟨hexStartX3 p + 2 * 2.825, hexStartY sqrt3 p, is⟩,
       ⟨hexStartX3 p + 2.825 / 2, hexStartY sqrt3 p + hexRowSpacing sqrt3, is⟩,
       ⟨hexStartX3 p + 2.825 / 2 + 2.825, hexStartY sqrt3 p + hexRowSpacing sqrt3, is⟩,
       ⟨hexStartX3 p, hexStartY sqrt3 p + 2 * hexRowSpacing sqrt3, is⟩,
       ⟨hexStartX3 p + 2.825, hexStartY sqrt3 p + 2 * hexRowSpacing sqrt3, is⟩,
       ⟨hexStartX3 p + 2 * 2.825, hexStartY sqrt3 p + 2 * hexRowSpacing sqrt3, is⟩,
       ⟨hexStartX3 p + 2.825 / 2, hexStartY sqrt3 p + 3 * hexRowSpacing sqrt3, is⟩,
       ⟨hexStartX3 p + 2.825 / 2 + 2.825, hexStartY sqrt3 p + 3 * hexRowSpacing sqrt3, is⟩] := by
  have h4 : List.range 4 = [0, 1, 2, 3] := rfl
  have h3 : List.range 3 = [0, 1, 2] := rfl
  have h2 : List.range 2 = [0, 1] := rfl
  constructor
  · simp [generatePrintLayout, hbs, generateHexPrintLayout, size2_25, hexNumRows,
      hexRowCounts, h4]
  · simp [generatePrintLayout, hbs, generateHexPrintLayout, size2_25, hexNumRows,
      hexRowCounts, h4, h3, h2, hexStartX3, hexStartY, hexRowSpacing,
      PlacedButton.mk.injEq]
    norm_num

end ButtonPrinter

namespace ButtonPrinter

/-- Claim C1: for the hex-strategy 2.25" button size (`maxRows = 4`),
`generatePrintLayout` produces 4 rows with per-row counts `[3,2,3,2]` and
total 10; within every row consecutive buttons are spaced by exactly
`step = cutLineDiameter + 0.2`, and the base x of every 2-button row
exceeds the base x of the 3-button rows by exactly `step / 2`.  The
button list is given in full: rows of 3 start at `hexStartX3 p`, rows of
2 at `hexStartX3 p + step / 2`. -/
theorem hex_row_structure (sqrt3 : ℚ) (is : ImageState) (p : PaperDefinition)
    (hbs : is.buttonSize = size2_25) :
    (generatePrintLayout sqrt3 is p).grid.rows = 4 ∧
    (generatePrintLayout sqrt3 is p).grid.total = 10 ∧
    hexRowCounts (hexNumRows size2_25.maxRows) = [3, 2, 3, 2] ∧
    (generatePrintLayout sqrt3 is p).buttons.map (fun b => (b.x, b.y)) =
      [(hexStartX3 p, hexStartY sqrt3 p),
       (hexStartX3 p + (size2_25.cutLineDiameter + 0.2), hexStartY sqrt3 p),
       (hexStartX3 p + 2 * (size2_25.cutLineDiameter + 0.2), hexStartY sqrt3 p),
       (hexStartX3 p + (size2_25.cutLineDiameter + 0.2) / 2,
        hexStartY sqrt3 p + hexRowSpacing sqrt3),
       (hexStartX3 p + (size2_25.cutLineDiameter + 0.2) / 2 + (size2_25.cutLineDiameter + 0.2),
        hexStartY sqrt3 p + hexRowSpacing sqrt3),
       (hexStartX3 p, hexStartY sqrt3 p + 2 * hexRowSpacing sqrt3),
       (hexStartX3 p + (size2_25.cutLineDiameter + 0.2),
        hexStartY sqrt3 p + 2 * hexRowSpacing sqrt3),
       (hexStartX3 p + 2 * (size2_25.cutLineDiameter + 0.2),
        hexStartY sqrt3 p + 2 * hexRowSpacing sqrt3),
       (hexStartX3 p + (size2_25.cutLineDiameter + 0.2) / 2,
        hexStartY sqrt3 p + 3 * hexRowSpacing sqrt3),
       (hexStartX3 p + (size2_25.cutLineDiameter + 0.2) / 2 + (size2_25.cutLineDiameter + 0.2),
        hexStartY sqrt3 p + 3 * hexRowSpacing sqrt3)] := by
  obtain ⟨hg, hb⟩ := hex_layout_2_25 sqrt3 is p hbs
  refine ⟨by rw [hg], by rw [hg], rfl, ?_⟩
  rw [hb]
  norm_num [size2_25]

/-- Witness for C1 at `sqrt3 = 1`, the 2.25" image state and US Letter. -/
theorem hex_row_structure_witness :
    testState225.buttonSize = size2_25 ∧
    ((generatePrintLayout 1 testState225 US_LETTER).grid.rows = 4 ∧
     (generatePrintLayout 1 testState225 US_LETTER).grid.total = 10 ∧
     hexRowCounts (hexNumRows size2_25.maxRows) = [3, 2, 3, 2] ∧
     (generatePrintLayout 1 testState225 US_LETTER).buttons.map (fun b => (b.x, b.y)) =
       [(hexStartX3 US_LETTER, hexStartY 1 US_LETTER),
        (hexStartX3 US_LETTER + (size2_25.cutLineDiameter + 0.2), hexStartY 1 US_LETTER),
        (hexStartX3 US_LETTER + 2 * (size2_25.cutLineDiameter + 0.2), hexStartY 1 US_LETTER),
        (hexStartX3 US_LETTER + (size2_25.cutLineDiameter + 0.2) / 2,
         hexStartY 1 US_LETTER + hexRowSpacing 1),
        (hexStartX3 US_LETTER + (size2_25.cutLineDiameter + 0.2) / 2 + (size2_25.cutLineDiameter + 0.2),
         hexStartY 1 US_LETTER + hexRowSpacing 1),
        (hexStartX3 US_LETTER, hexStartY 1 US_LETTER + 2 * hexRowSpacing 1),
        (hexStartX3 US_LETTER + (size2_25.cutLineDiameter + 0.2),
         hexStartY 1 US_LETTER + 2 * hexRowSpacing 1),
        (hexStartX3 US_LETTER + 2 * (size2_25.cutLineDiameter + 0.2),
         hexStartY 1 US_LETTER + 2 * hexRowSpacing 1),
        (hexStartX3 US_LETTER + (size2_25.cutLineDiameter + 0.2) / 2,
         hexStartY 1 US_LETTER + 3 * hexRowSpacing 1),
        (hexStartX3 US_LETTER + (size2_25.cutLineDiameter + 0.2) / 2 + (size2_25.cutLineDiameter + 0.2),
         hexStartY 1 US_LETTER + 3 * hexRowSpacing 1)]) :=
  ⟨rfl, hex_row_structure 1 testState225 US_LETTER rfl⟩

/-- Claim C2: for every paper with positive printable width and height and
every grid-strategy button size with positive `cutLineDiameter`, every
placed button lies within the printable area (`marginLeft ≤ x` and
`x + cutLineDiameter ≤ width - marginRight`, analogously in y), and any
two buttons of the same row (same index quotient by the column count in
the row-major list) share the same y. -/
theorem grid_layout_bounds (sqrt3 : ℚ) (is : ImageState) (p : PaperDefinition)
    (hhex : is.buttonSize.layout ≠ some "hex")
    (hpw : 0 < printableWidth p) (hph : 0 < printableHeight p)
    (hd : 0 < is.buttonSize.cutLineDiameter) :
    (∀ b ∈ (generatePrintLayout sqrt3 is p).buttons,
        p.marginLeft ≤ b.x ∧
        b.x + is.buttonSize.cutLineDiameter ≤ p.width - p.marginRight ∧
        p.marginTop ≤ b.y ∧
        b.y + is.buttonSize.cutLineDiameter ≤ p.height - p.marginBottom) ∧
    (∀ i j : ℕ, i < (generatePrintLayout sqrt3 is p).buttons.length →
        j < (generatePrintLayout sqrt3 is p).buttons.length →
        i / (generatePrintLayout sqrt3 is p).grid.columns.toNat =
          j / (generatePrintLayout sqrt3 is p).grid.columns.toNat →
        ((generatePrintLayout sqrt3 is p).buttons.getD i ⟨0, 0, is⟩).y =
          ((generatePrintLayout sqrt3 is p).buttons.getD j ⟨0, 0, is⟩).y) := by
  have hCd : ((calculateButtonsPerPage is.buttonSize p).columns : ℚ) *
      is.buttonSize.cutLineDiameter ≤ p.width - p.marginLeft - p.marginRight := by
    rw [calc_columns]
    have h1 : ((⌊(p.width - p.marginLeft - p.marginRight) / is.buttonSize.cutLineDiameter⌋ : ℤ) : ℚ) ≤
        (p.width - p.marginLeft - p.marginRight) / is.buttonSize.cutLineDiameter :=
      Int.floor_le _
    calc ((⌊(p.width - p.marginLeft - p.marginRight) / is.buttonSize.cutLineDiameter⌋ : ℤ) : ℚ) *
          is.buttonSize.cutLineDiameter
        ≤ ((p.width - p.marginLeft - p.marginRight) / is.buttonSize.cutLineDiameter) *
          is.buttonSize.cutLineDiameter := by
          exact mul_le_mul_of_nonneg_right h1 hd.le
      _ = p.width - p.marginLeft - p.marginRight := by field_simp
  have hRd : ((calculateButtonsPerPage is.buttonSize p).rows : ℚ) *
      is.buttonSize.cutLineDiameter ≤ p.height - p.marginTop - p.marginBottom := by
    have h0 := calc_rows_le is.buttonSize p
    have h1 : (((calculateButtonsPerPage is.buttonSize p).rows : ℤ) : ℚ) ≤
        (p.height - p.marginTop - p.marginBottom) / is.buttonSize.cutLineDiameter := by
      calc (((calculateButtonsPerPage is.buttonSize p).rows : ℤ) : ℚ)
          ≤ ((⌊(p.height - p.marginTop - p.marginBottom) / is.buttonSize.cutLineDiameter⌋ : ℤ) : ℚ) := by
            exact_mod_cast h0
        _ ≤ _ := Int.floor_le _
    calc (((calculateButtonsPerPage is.buttonSize p).rows : ℤ) : ℚ) *
          is.buttonSize.cutLineDiameter
        ≤ ((p.height - p.marginTop - p.marginBottom) / is.buttonSize.cutLineDiameter) *
          is.buttonSize.cutLineDiameter := mul_le_mul_of_nonneg_right h1 hd.le
      _ = p.height - p.marginTop - p.marginBottom := by field_simp
  simp only [generatePrintLayout, if_neg hhex]
  constructor
  · intro b hb
    simp only [List.mem_flatMap, List.mem_map, List.mem_range] at hb
    obtain ⟨row, hrow, col, hcol, rfl⟩ := hb
    have hC1 : 1 ≤ (calculateButtonsPerPage is.buttonSize p).columns := by omega
    have hR1 : 1 ≤ (calculateButtonsPerPage is.buttonSize p).rows := by omega
    have cbx := cell_bounds (p.width - p.marginLeft - p.marginRight)
      is.buttonSize.cutLineDiameter (calculateButtonsPerPage is.buttonSize p).columns
      col hd hC1 hCd hcol
    have cby := cell_bounds (p.height - p.marginTop - p.marginBottom)
      is.buttonSize.cutLineDiameter (calculateButtonsPerPage is.buttonSize p).rows
      row hd hR1 hRd hrow
    refine ⟨by linarith [cbx.1], by linarith [cbx.2], by linarith [cby.1], by linarith [cby.2]⟩
  · intro i j hi hj hij
    rw [length_flatMap_range_map] at hi hj
    rw [getD_flatMap_range_map _ _ _ _ _ hi, getD_flatMap_range_map _ _ _ _ _ hj]
    simp only
    rw [hij]

/-- Witness for C2 at `sqrt3 = 1`, the 1.25" image state and US Letter. -/
theorem grid_layout_bounds_witness :
    testState125.buttonSize.layout ≠ some "hex" ∧
    0 < printableWidth US_LETTER ∧ 0 < printableHeight US_LETTER ∧
    0 < testState125.buttonSize.cutLineDiameter ∧
    ((∀ b ∈ (generatePrintLayout 1 testState125 US_LETTER).buttons,
        US_LETTER.marginLeft ≤ b.x ∧
        b.x + testState125.buttonSize.cutLineDiameter ≤
          US_LETTER.width - US_LETTER.marginRight ∧
        US_LETTER.marginTop ≤ b.y ∧
        b.y + testState125.buttonSize.cutLineDiameter ≤
          US_LETTER.height - US_LETTER.marginBottom) ∧
     (∀ i j : ℕ, i < (generatePrintLayout 1 testState125 US_LETTER).buttons.length →
        j < (generatePrintLayout 1 testState125 US_LETTER).buttons.length →
        i / (generatePrintLayout 1 testState125 US_LETTER).grid.columns.toNat =
          j / (generatePrintLayout 1 testState125 US_LETTER).grid.columns.toNat →
        ((generatePrintLayout 1 testState125 US_LETTER).buttons.getD i
            ⟨0, 0, testState125⟩).y =
          ((generatePrintLayout 1 testState125 US_LETTER).buttons.getD j
            ⟨0, 0, testState125⟩).y)) :=
  ⟨by simp [testState125, size1_25],
   by norm_num [printableWidth, US_LETTER],
   by norm_num [printableHeight, US_LETTER],
   by norm_num [testState125, size1_25],
   grid_layout_bounds 1 testState125 US_LETTER (by simp [testState125, size1_25])
     (by norm_num [printableWidth, US_LETTER]) (by norm_num [printableHeight, US_LETTER])
     (by norm_num [testState125, size1_25])⟩

/-- Claim C3: for the 1.25" size on US Letter, `calculateButtonsPerPage`
returns 4 columns, 5 rows and 20 total. -/
theorem grid_capacity_1_25_letter :
    (calculateButtonsPerPage size1_25 US_LETTER).columns = 4 ∧
    (calculateButtonsPerPage size1_25 US_LETTER).rows = 5 ∧
    (calculateButtonsPerPage size1_25 US_LETTER).total = 20 := by
  norm_num [calculateButtonsPerPage, size1_25, US_LETTER]

/-- Claim C4: a grid-strategy button size whose diameter exceeds the
printable width or height yields an empty button list (not an error),
and in particular `cutLineDiameter = 20` on US Letter yields `columns = 0`
and an empty list. -/
theorem degenerate_layout_empty (sqrt3 : ℚ) (is : ImageState) (p : PaperDefinition)
    (hhex : is.buttonSize.layout ≠ some "hex")
    (hd : 0 < is.buttonSize.cutLineDiameter)
    (hdeg : printableWidth p < is.buttonSize.cutLineDiameter ∨
            printableHeight p < is.buttonSize.cutLineDiameter) :
    (generatePrintLayout sqrt3 is p).buttons = [] ∧
    (calculateButtonsPerPage size20 US_LETTER).columns = 0 ∧
    (∀ is2 : ImageState, is2.buttonSize = size20 →
      (generatePrintLayout sqrt3 is2 US_LETTER).buttons = []) := by
  refine ⟨?_, ?_, ?_⟩
  · apply grid_buttons_empty sqrt3 is p hhex
    rcases hdeg with h | h
    · exact Or.inl (calc_columns_nonpos _ _ hd (by simpa [printableWidth] using h))
    · exact Or.inr (calc_rows_nonpos _ _ hd (by simpa [printableHeight] using h))
  · norm_num [calculateButtonsPerPage, size20, US_LETTER]
  · intro is2 h2
    apply grid_buttons_empty sqrt3 is2 US_LETTER (by rw [h2]; simp [size20])
    refine Or.inl ?_
    apply calc_columns_nonpos
    · rw [h2]; norm_num [size20]
    · rw [h2]; norm_num [size20, US_LETTER]

/-- Witness for C4: the 1.25" size on the 2-inch-tall paper (printable
height 1 < 1.772), plus the oversized size on US Letter. -/
theorem degenerate_layout_empty_witness :
    testState125.buttonSize.layout ≠ some "hex" ∧
    0 < testState125.buttonSize.cutLineDiameter ∧
    (printableWidth shortPaper < testState125.buttonSize.cutLineDiameter ∨
      printableHeight shortPaper < testState125.buttonSize.cutLineDiameter) ∧
    (generatePrintLayout 1 testState125 shortPaper).buttons = [] ∧
    (calculateButtonsPerPage size20 US_LETTER).columns = 0 :=
  ⟨by simp [testState125, size1_25],
   by norm_num [testState125, size1_25],
   Or.inr (by norm_num [printableHeight, shortPaper, testState125, size1_25]),
   (degenerate_layout_empty 1 testState125 shortPaper (by simp [testState125, size1_25])
     (by norm_num [testState125, size1_25])
     (Or.inr (by norm_num [printableHeight, shortPaper, testState125, size1_25]))).1,
   (degenerate_layout_empty 1 testState125 shortPaper (by simp [testState125, size1_25])
     (by norm_num [testState125, size1_25])
     (Or.inr (by norm_num [printableHeight, shortPaper, testState125, size1_25]))).2.1⟩

/-- Counterexample to C5 as stated: a paper whose horizontal margins
exceed its width gives a negative printable width, and
`calculateButtonsPerPage` returns `columns = -1 < 0` even though the
button size (the catalog 1.25" size) has positive `cutLineDiameter`. -/
theorem calc_negative_columns :
    0 < size1_25.cutLineDiameter ∧
    (calculateButtonsPerPage size1_25 badPaper).columns = -1 := by
  norm_num [calculateButtonsPerPage, size1_25, badPaper]

/-- Claim C5 (amended): for every paper whose printable width and height
are non-negative and every button size with positive `cutLineDiameter`,
the columns and rows returned by `calculateButtonsPerPage` are
non-negative. -/
theorem calc_nonneg (bs : ButtonSize) (p : PaperDefinition)
    (hd : 0 < bs.cutLineDiameter)
    (hpw : 0 ≤ printableWidth p) (hph : 0 ≤ printableHeight p) :
    0 ≤ (calculateButtonsPerPage bs p).columns ∧
    0 ≤ (calculateButtonsPerPage bs p).rows := by
  simp only [calculateButtonsPerPage, printableWidth, printableHeight] at *
  have hc : (0 : ℤ) ≤ ⌊(p.width - p.marginLeft - p.marginRight) / bs.cutLineDiameter⌋ :=
    Int.floor_nonneg.mpr (div_nonneg hpw hd.le)
  have hr : (0 : ℤ) ≤ ⌊(p.height - p.marginTop - p.marginBottom) / bs.cutLineDiameter⌋ :=
    Int.floor_nonneg.mpr (div_nonneg hph hd.le)
  refine ⟨hc, ?_⟩
  cases h : bs.maxRows with
  | none => simpa using hr
  | some m =>
    simp only
    split_ifs with h1
    · exact_mod_cast Nat.zero_le m
    · exact hr

/-- Witness for C5 (amended) at the 1.25" size on US Letter. -/
theorem calc_nonneg_witness :
    0 < size1_25.cutLineDiameter ∧ 0 ≤ printableWidth US_LETTER ∧
    0 ≤ printableHeight US_LETTER ∧
    0 ≤ (calculateButtonsPerPage size1_25 US_LETTER).columns ∧
    0 ≤ (calculateButtonsPerPage size1_25 US_LETTER).rows := by
  refine ⟨by norm_num [size1_25], by norm_num [printableWidth, US_LETTER],
    by norm_num [printableHeight, US_LETTER], ?_, ?_⟩
  · exact (calc_nonneg size1_25 US_LETTER (by norm_num [size1_25])
      (by norm_num [printableWidth, US_LETTER]) (by norm_num [printableHeight, US_LETTER])).1
  · exact (calc_nonneg size1_25 US_LETTER (by norm_num [size1_25])
      (by norm_num [printableWidth, US_LETTER]) (by norm_num [printableHeight, US_LETTER])).2

end ButtonPrinter

namespace ButtonPrinter

/-- Claim C6: the hex algorithm ignores the paper's margin fields — two
papers agreeing on width and height produce identical grids and identical
button placements from `generatePrintLayout` for any hex-strategy size. -/
theorem hex_ignores_margins (sqrt3 : ℚ) (is : ImageState) (p1 p2 : PaperDefinition)
    (hhex : is.buttonSize.layout = some "hex")
    (hw : p1.width = p2.width) (hh : p1.height = p2.height) :
    (generatePrintLayout sqrt3 is p1).grid = (generatePrintLayout sqrt3 is p2).grid ∧
    (generatePrintLayout sqrt3 is p1).buttons = (generatePrintLayout sqrt3 is p2).buttons := by
  simp only [generatePrintLayout, if_pos hhex, generateHexPrintLayout, hw, hh]
  exact ⟨by trivial, by trivial⟩

/-- Witness for C6: US Letter against a same-size paper with different
margins. -/
theorem hex_ignores_margins_witness :
    testState225.buttonSize.layout = some "hex" ∧
    US_LETTER.width = otherMarginPaper.width ∧
    US_LETTER.height = otherMarginPaper.height ∧
    US_LETTER.marginLeft ≠ otherMarginPaper.marginLeft ∧
    (generatePrintLayout 1 testState225 US_LETTER).grid =
      (generatePrintLayout 1 testState225 otherMarginPaper).grid ∧
    (generatePrintLayout 1 testState225 US_LETTER).buttons =
      (generatePrintLayout 1 testState225 otherMarginPaper).buttons :=
  ⟨rfl, rfl, rfl, by norm_num [US_LETTER, otherMarginPaper],
   (hex_ignores_margins 1 testState225 US_LETTER otherMarginPaper rfl rfl rfl).1,
   (hex_ignores_margins 1 testState225 US_LETTER otherMarginPaper rfl rfl rfl).2⟩

/-- Claim C7: the calibration save handler rejects exactly the inputs
that are not positive finite numbers (`NaN` — covering empty input —,
`±Infinity`, `undefined`, zero and negatives), leaving the stored record
unchanged; on a positive finite measurement `q` it stores the record
`{ expectedInches := 6, measuredInches := q, scaleFactor := 6 / q }`,
and `6.25` yields scale factor `0.96`. -/
theorem calibration_save_spec (measured : JsNum) (stored : Option CalibrationData) :
    ((∀ q : ℚ, measured = .num q → ¬ 0 < q) →
      handleSaveCalibration measured stored = stored) ∧
    (∀ q : ℚ, measured = .num q → 0 < q →
      handleSaveCalibration measured stored =
        some { expectedInches := 6, measuredInches := q, scaleFactor := .num (6 / q) }) ∧
    handleSaveCalibration (.num 6.25) stored =
      some { expectedInches := 6, measuredInches := 6.25, scaleFactor := .num 0.96 } := by
  refine ⟨?_, ?_, ?_⟩
  · intro hv
    cases measured with
    | num q =>
      have := hv q rfl
      simp only [handleSaveCalibration, JsNum.falsy, JsNum.le0, JsNum.isFinite]
      have hq : q ≤ 0 := not_lt.mp this
      by_cases h0 : q = 0 <;> simp [h0, hq]
    | nan => rfl
    | inf => rfl
    | negInf => rfl
    | undef => rfl
  · rintro q rfl hq
    have h0 : ¬ (q = 0) := ne_of_gt hq
    have hle : ¬ (q ≤ 0) := not_le.mpr hq
    simp [handleSaveCalibration, JsNum.falsy, JsNum.le0, JsNum.isFinite, JsNum.val, h0, hle]
  · norm_num [handleSaveCalibration, JsNum.falsy, JsNum.le0, JsNum.isFinite, JsNum.val]

/-- Witness for C7: `NaN`, `-1`, `0` and `Infinity` all leave the store
unchanged. -/
theorem calibration_save_witness :
    handleSaveCalibration .nan none = none ∧
    handleSaveCalibration (.num (-1)) none = none ∧
    handleSaveCalibration (.num 0) (some ⟨6, 8, .num 0.75⟩) = some ⟨6, 8, .num 0.75⟩ ∧
    handleSaveCalibration .inf none = none := by
  refine ⟨?_, ?_, ?_, ?_⟩
  · exact (calibration_save_spec .nan none).1 (by intro q h; cases h)
  · exact (calibration_save_spec (.num (-1)) none).1
      (by rintro q h hq; cases h; norm_num at hq)
  · exact (calibration_save_spec (.num 0) (some ⟨6, 8, .num 0.75⟩)).1
      (by rintro q h hq; cases h; norm_num at hq)
  · exact (calibration_save_spec .inf none).1 (by intro q h; cases h)

/-- Claim C8: `getCalibrationFactor` returns 1 when no record exists or
the stored `scaleFactor` is zero or non-finite (`NaN`, `±Infinity`,
`undefined`); otherwise it returns the stored `scaleFactor`.  It is a
total function, so it never throws. -/
theorem calibration_factor_spec :
    getCalibrationFactor none = 1 ∧
    (∀ c : CalibrationData, c.scaleFactor = .num 0 ∨ c.scaleFactor.isFinite = false →
      getCalibrationFactor (some c) = 1) ∧
    (∀ (c : CalibrationData) (q : ℚ), c.scaleFactor = .num q → q ≠ 0 →
      getCalibrationFactor (some c) = q) := by
  refine ⟨rfl, ?_, ?_⟩
  · intro c hc
    rcases hc with h | h
    · simp [getCalibrationFactor, h, JsNum.falsy]
    · have : c.scaleFactor.falsy = true ∨ c.scaleFactor.isFinite = false := Or.inr h
      cases hsf : c.scaleFactor <;>
        simp_all [getCalibrationFactor, JsNum.falsy, JsNum.isFinite]
  · intro c q hq h0
    simp [getCalibrationFactor, hq, JsNum.falsy, JsNum.isFinite, JsNum.val, h0]

/-- Witness for C8: `NaN` and `0` fall back to 1; `0.96` is returned. -/
theorem calibration_factor_witness :
    getCalibrationFactor (some ⟨6, 7, .nan⟩) = 1 ∧
    getCalibrationFactor (some ⟨6, 7, .num 0⟩) = 1 ∧
    getCalibrationFactor (some ⟨6, 25/4, .num (24/25)⟩) = 24/25 := by
  refine ⟨?_, ?_, ?_⟩
  · exact calibration_factor_spec.2.1 ⟨6, 7, .nan⟩ (Or.inr rfl)
  · exact calibration_factor_spec.2.1 ⟨6, 7, .num 0⟩ (Or.inl rfl)
  · exact calibration_factor_spec.2.2 ⟨6, 25/4, .num (24/25)⟩ (24/25) rfl (by norm_num)

/-- Counterexample to C9 as stated: `"toString"` is outside the catalog,
yet `getButtonSize` does not fail — bracket access reaches the inherited
truthy `Object.prototype.toString`, so the `!size` guard does not fire
and the inherited member is returned. -/
theorem catalog_lookup_prototype_leak :
    ("toString" : String) ≠ "1.25" ∧ ("toString" : String) ≠ "2.25" ∧
    getButtonSize "toString" ≠ .error ("Unknown button size: " ++ "toString") ∧
    getButtonSize "toString" = .ok (.inherited "toString") := by
  have h : getButtonSize "toString" = .ok (.inherited "toString") := rfl
  refine ⟨by decide, by decide, ?_, h⟩
  rw [h]
  simp

/-- Claim C9 (amended): the catalog lookup is deterministic on its two
entries — `"1.25"` yields the grid-strategy record with diameters
1.772 / 1.156 and `maxRows = 5`, `"2.25"` the hex-strategy record with
2.625 / 2.063 and `maxRows = 4`; every other key that is not an
`Object.prototype` property name fails with an error carrying the
invalid key, while `Object.prototype` keys (such as `"toString"`) are
returned as inherited truthy values without an error. -/
theorem catalog_lookup_spec :
    getButtonSize "1.25" =
      .ok (.size { name := "1.25 inch"
                   cutLineDiameter := 1.772
                   contentGuideDiameter := 1.156
                   layout := none
                   maxRows := some 5 }) ∧
    getButtonSize "2.25" =
      .ok (.size { name := "2.25 inch"
                   cutLineDiameter := 2.625
                   contentGuideDiameter := 2.063
                   layout := some "hex"
                   maxRows := some 4 }) ∧
    (∀ key : String, key ≠ "1.25" → key ≠ "2.25" → key ∉ objectPrototypeKeys →
      getButtonSize key = .error ("Unknown button size: " ++ key)) ∧
    (∀ key ∈ objectPrototypeKeys, getButtonSize key = .ok (.inherited key)) := by
  refine ⟨rfl, rfl, ?_, ?_⟩
  · intro key h1 h2 h3
    simp [getButtonSize, BUTTON_SIZES, h1, h2, h3]
  · intro key hk
    fin_cases hk <;> rfl

/-- Witness for C9 (amended) at the keys `"bogus"` and `"toString"`. -/
theorem catalog_lookup_witness :
    ("bogus" : String) ≠ "1.25" ∧ ("bogus" : String) ≠ "2.25" ∧
    "bogus" ∉ objectPrototypeKeys ∧
    getButtonSize "bogus" = .error "Unknown button size: bogus" ∧
    "toString" ∈ objectPrototypeKeys ∧
    getButtonSize "toString" = .ok (.inherited "toString") := by
  refine ⟨by decide, by decide, by decide, ?_, by decide, ?_⟩
  · exact catalog_lookup_spec.2.2.1 "bogus" (by decide) (by decide) (by decide)
  · exact catalog_lookup_spec.2.2.2 "toString" (by decide)

/-- Claim C10: the hex algorithm performs no bounds check against the
paper: its row count and total depend only on `buttonSize.maxRows`, and
there is a paper with positive printable width and height (8.5 × 2 with
0.5" margins) on which the 2.25" hex layout places a button at negative
y, i.e. off the page (for any non-negative value of `Math.sqrt(3)`). -/
theorem hex_no_bounds_check :
    (∀ (sqrt3 : ℚ) (is1 is2 : ImageState) (p1 p2 : PaperDefinition),
      is1.buttonSize.layout = some "hex" → is2.buttonSize.layout = some "hex" →
      is1.buttonSize.maxRows = is2.buttonSize.maxRows →
      (generatePrintLayout sqrt3 is1 p1).grid.rows =
        (generatePrintLayout sqrt3 is2 p2).grid.rows ∧
      (generatePrintLayout sqrt3 is1 p1).grid.total =
        (generatePrintLayout sqrt3 is2 p2).grid.total) ∧
    (∀ sqrt3 : ℚ, 0 ≤ sqrt3 → ∀ is : ImageState, is.buttonSize = size2_25 →
      ∃ p : PaperDefinition, 0 < printableWidth p ∧ 0 < printableHeight p ∧
        ∃ b ∈ (generatePrintLayout sqrt3 is p).buttons, b.y < 0) := by
  constructor
  · intro sqrt3 is1 is2 p1 p2 h1 h2 hmr
    simp only [generatePrintLayout, if_pos h1, if_pos h2, generateHexPrintLayout, hmr]
    exact ⟨by trivial, by trivial⟩
  · intro sqrt3 h3 is hbs
    refine ⟨shortPaper, by norm_num [printableWidth, shortPaper],
      by norm_num [printableHeight, shortPaper], ?_⟩
    obtain ⟨-, hb⟩ := hex_layout_2_25 sqrt3 is shortPaper hbs
    refine ⟨⟨hexStartX3 shortPaper, hexStartY sqrt3 shortPaper, is⟩, ?_, ?_⟩
    · rw [hb]; exact List.mem_cons_self _ _
    · show hexStartY sqrt3 shortPaper < 0
      norm_num [hexStartY, hexRowSpacing, shortPaper]
      nlinarith

/-- Witness for C10 at `sqrt3 = 1.732` and the 2.25" image state. -/
theorem hex_no_bounds_check_witness :
    (0 : ℚ) ≤ 1732 / 1000 ∧ testState225.buttonSize = size2_25 ∧
    ∃ p : PaperDefinition, 0 < printableWidth p ∧ 0 < printableHeight p ∧
      ∃ b ∈ (generatePrintLayout (1732 / 1000) testState225 p).buttons, b.y < 0 :=
  ⟨by norm_num, rfl,
   hex_no_bounds_check.2 (1732 / 1000) (by norm_num) testState225 rfl⟩

end ButtonPrinter
